import Mathlib

set_option maxRecDepth 10000

/-!
Verification development for the LeRobot cloud-training orchestration modules
(`lerobot/cloud/ssh_tunnel.py`, `lerobot/cloud/training_runner.py`,
`lerobot/cloud/ec2_manager.py`, `lerobot/scripts/lerobot_cloud_train.py`).

The Python code is shallowly embedded: every stateful method becomes a pure
Lean function over an explicit state type, remote effects (paramiko calls,
the remote filesystem, command execution) are passed in as oracle functions,
and each function additionally returns the trace of effects it performed
(commands executed, sleeps, calls to the cloud control plane).
-/

namespace LeRobotCloud

/-! Section: Exception model

The paramiko exceptions relevant to `SSHTunnel.connect`, with the Python
class hierarchy encoded in `caughtByConnect`.  Note that in paramiko,
`AuthenticationException` is a subclass of `SSHException`, and
`ConnectionRefusedError` and `socket.timeout` are subclasses of `OSError`. -/

inductive PyExc where
  /-- paramiko.ssh_exception.NoValidConnectionsError. -/
  | noValidConnections
  /-- paramiko.ssh_exception.SSHException (protocol or handshake failure). -/
  | sshException
  /-- paramiko.ssh_exception.AuthenticationException: a credential failure.
      In paramiko this class is a SUBCLASS of SSHException. -/
  | authenticationException
  /-- builtins.ConnectionRefusedError (a subclass of OSError). -/
  | connectionRefused
  /-- builtins.OSError (covers no-route-to-host, socket timeouts, ...). -/
  | osError
  /-- builtins.RuntimeError with a message, raised by the not-connected guards. -/
  | runtimeError (msg : String)
  /-- builtins.TypeError with a message (e.g. an unexpected keyword argument). -/
  | typeError (msg : String)
  deriving DecidableEq, Repr

/-- Whether an exception is caught by the `except` clause of
`SSHTunnel.connect` (ssh_tunnel.py lines 72-75), which names
`(NoValidConnectionsError, SSHException, ConnectionRefusedError, OSError)`.
Because `AuthenticationException` subclasses `SSHException`, an
authentication failure IS caught by this clause. -/
def caughtByConnect : PyExc → Bool
  | .noValidConnections => true
  | .sshException => true
  | .authenticationException => true
  | .connectionRefused => true
  | .osError => true
  | .runtimeError _ => false
  | .typeError _ => false

/-- Whether an exception models a transient network/handshake failure in the
sense of the spec (connection refused, no route, protocol-negotiation
timeout).  An authentication failure is NOT transient. -/
def isTransient : PyExc → Bool
  | .noValidConnections => true
  | .sshException => true
  | .connectionRefused => true
  | .osError => true
  | _ => false

/-! Section: SSHTunnel state

`client` and `sftp` mirror `self.client` / `self.sftp`: `none` is Python
`None`; `some true` is an open channel object; `some false` is an object
whose `close()` has been called (paramiko close is a no-op on a closed
object and never raises). -/

structure Tunnel where
  client : Option Bool
  sftp : Option Bool
  deriving DecidableEq, Repr

/-- The state of `SSHTunnel` right after `__init__`: both fields are `None`. -/
def initTunnel : Tunnel := { client := none, sftp := none }

/-! Section: SSHTunnel.connect (ssh_tunnel.py lines 41-83)

The behaviour of `self.client.connect(...)` on attempt `i` is supplied by an
oracle `outcome : Nat → Option PyExc` (`none` means attempt `i` succeeds,
`some e` means it raises `e`).  The result records what the Python method
returned, how many attempts were made, how many `time.sleep(retry_delay)`
calls were issued, whether an exception propagated out of `connect`, and the
final tunnel state. -/

structure ConnectResult where
  ok : Bool
  attempts : Nat
  sleeps : Nat
  raised : Option PyExc
  tunnel : Tunnel
  deriving DecidableEq, Repr

/-- One iteration of the `for attempt in range(max_retries)` loop and the
rest of the loop after it.  `remaining` is the number of loop iterations
left (`maxRetries - attempt`); recursion is on `remaining`. -/
def connectGo (outcome : Nat → Option PyExc) (maxRetries : Nat) :
    Nat → Nat → Nat → Tunnel → ConnectResult
  | 0, attempt, sleeps, t =>
      -- loop exhausted: `return False` after the loop
      { ok := false, attempts := attempt, sleeps := sleeps, raised := none, tunnel := t }
  | remaining + 1, attempt, sleeps, t =>
      -- `self.client = paramiko.SSHClient()`: a fresh, not yet connected client
      let t1 : Tunnel := { t with client := some false }
      match outcome attempt with
      | none =>
          -- `self.client.connect(...)` succeeded, `self.sftp = self.client.open_sftp()`
          { ok := true, attempts := attempt + 1, sleeps := sleeps, raised := none,
            tunnel := { client := some true, sftp := some true } }
      | some e =>
          if caughtByConnect e then
            if attempt < maxRetries - 1 then
              -- `time.sleep(retry_delay)` then next loop iteration
              connectGo outcome maxRetries remaining (attempt + 1) (sleeps + 1) t1
            else
              -- last attempt failed: `return False`
              { ok := false, attempts := attempt + 1, sleeps := sleeps, raised := none,
                tunnel := t1 }
          else
            -- exception not named in the except clause propagates to the caller
            { ok := false, attempts := attempt + 1, sleeps := sleeps, raised := some e,
              tunnel := t1 }

/-- Python `SSHTunnel.connect(max_retries, retry_delay)` starting from the
freshly-initialised tunnel. -/
def connect (outcome : Nat → Option PyExc) (maxRetries : Nat) : ConnectResult :=
  connectGo outcome maxRetries maxRetries 0 0 initTunnel

/-- Oracle: an authentication failure on attempt 0, success afterwards. -/
def authThenOk : Nat → Option PyExc :=
  fun n => if n = 0 then some .authenticationException else none

/-- Oracle: connection refused on attempt 0, success afterwards. -/
def refusedThenOk : Nat → Option PyExc :=
  fun n => if n = 0 then some .connectionRefused else none

/-! Section: SSHTunnel.execute_command (ssh_tunnel.py lines 85-128)

The remote process is supplied as the raw line lists the two paramiko
channel-file iterators yield (`for line in stdout` / `for line in stderr`)
plus the exit status that `stdout.channel.recv_exit_status()` reports.
`printed` is the trace of lines the observer sees via `print`, in order. -/

/-- Python `line.rstrip("\n")`: remove every trailing newline character. -/
def rstripNl (s : String) : String :=
  String.mk ((s.data.reverse.dropWhile (fun c => c = '\n')).reverse)

/-- The message of the guard `RuntimeError` in execute_command / upload_file /
download_file. -/
def notConnectedMsg : String := "Not connected. Call connect() first."

structure ExecOutput where
  exitCode : Int
  stdoutText : String
  stderrText : String
  printed : List String
  deriving DecidableEq, Repr

/-- One of the two `for line in <channel-file>` loops of `execute_command`:
accumulates `text += line + "\n"` and, when streaming, prints
`tag + line.rstrip("\n")` (`tag` is `""` for stdout and `"[ERROR] "` for
stderr). -/
def readStream (stream : Bool) (tag : String) :
    List String → String → List String → String × List String
  | [], text, printed => (text, printed)
  | line :: rest, text, printed =>
      let lineStr := rstripNl line
      readStream stream tag rest (text ++ line ++ "\n")
        (if stream then printed ++ [tag ++ lineStr] else printed)

/-- Closed form of the text a stream loop accumulates: every line in order,
each followed by one appended newline. -/
def concatLines : List String → String
  | [] => ""
  | l :: rest => l ++ "\n" ++ concatLines rest

/-- Python `SSHTunnel.execute_command(command, stream_output)` on tunnel state `t`.
Reads the whole stdout stream first, then the whole stderr stream, then the
exit status; the tunnel state itself is not modified by the method. -/
def executeCommand (t : Tunnel) (command : String) (streamOutput : Bool)
    (outLines errLines : List String) (exitStatus : Int) : Except PyExc ExecOutput :=
  match t.client with
  | none => .error (.runtimeError notConnectedMsg)
  | some _ =>
      let so := readStream streamOutput "" outLines "" []
      let se := readStream streamOutput "[ERROR] " errLines "" so.2
      .ok { exitCode := exitStatus, stdoutText := so.1, stderrText := se.1,
            printed := se.2 }

/-! Section: SSHTunnel.upload_file / download_file (ssh_tunnel.py lines 130-174)

`sftp.put` / `sftp.get` succeed exactly when the source path exists and is
transferable; that is supplied as an oracle predicate.  A failing transfer
raises inside the `try`, is caught by `except Exception`, and the method
returns `False`; it never propagates an exception once connected. -/

/-- Python `SSHTunnel.upload_file(local_path, remote_path)` on tunnel state `t`;
`localOk` tells whether `sftp.put` succeeds for a given local path. -/
def uploadFile (t : Tunnel) (localOk : String → Bool)
    (localPath remotePath : String) : Except PyExc Bool :=
  match t.sftp with
  | none => .error (.runtimeError notConnectedMsg)
  | some _ => if localOk localPath then .ok true else .ok false

/-- Python `SSHTunnel.download_file(remote_path, local_path)` on tunnel state `t`;
`remoteOk` tells whether `sftp.get` succeeds for a given remote path (a
nonexistent remote path makes it raise, which the method catches). -/
def downloadFile (t : Tunnel) (remoteOk : String → Bool)
    (remotePath localPath : String) : Except PyExc Bool :=
  match t.sftp with
  | none => .error (.runtimeError notConnectedMsg)
  | some _ => if remoteOk remotePath then .ok true else .ok false

/-! Section: SSHTunnel.close (ssh_tunnel.py lines 176-182)

`if self.sftp: self.sftp.close()` then `if self.client: self.client.close()`.
Closing marks the channel object closed; paramiko close on an already-closed
object is a no-op, so `close` never raises and never changes a `None` field
into something else. -/

def close (t : Tunnel) : Tunnel :=
  { client := t.client.map (fun _ => false), sftp := t.sftp.map (fun _ => false) }

/-! Section: TrainingRunner.setup_instance (training_runner.py lines 25-75)

Four setup commands run in order over the SSH tunnel; command execution is
supplied as an oracle `exec : String → Int × String × String` giving
`(exit_code, stdout, stderr)`.  The embedding returns the boolean the Python
method returns together with the trace of commands actually executed. -/

def setupCmd1 : String := "sudo apt-get update && sudo apt-get upgrade -y"

def setupCmd2 : String := "sudo apt-get install -y python3.10 python3.10-venv python3-pip git"

def setupCmd3 : String := "python3.10 -m venv ~/venv_lerobot"

def setupCmd4 : String :=
  "source ~/venv_lerobot/bin/activate && pip install lerobot --timeout 600 2>&1 | tail -20"

def setupInstance (exec : String → Int × String × String) : Bool × List String :=
  let r1 := exec setupCmd1
  if r1.1 ≠ 0 then (false, [setupCmd1])
  else
    let r2 := exec setupCmd2
    if r2.1 ≠ 0 then (false, [setupCmd1, setupCmd2])
    else
      let r3 := exec setupCmd3
      if r3.1 ≠ 0 then (false, [setupCmd1, setupCmd2, setupCmd3])
      else
        let r4 := exec setupCmd4
        if r4.1 ≠ 0 then (false, [setupCmd1, setupCmd2, setupCmd3, setupCmd4])
        else (true, [setupCmd1, setupCmd2, setupCmd3, setupCmd4])

/-! Section: TrainingRunner.run_training: launch command construction
(training_runner.py lines 100-127)

Faithful rendering of the f-string interpolation: every field value is
concatenated into the command verbatim; only `hf_token` is wrapped in a pair
of double quotes.  Python truthiness of the optional strings is modelled:
`some ""` behaves like `None` under `if hf_token:`. -/

/-- Helper of `splitSlash`: accumulates the current segment in reverse. -/
def splitSlashGo : List Char → List Char → List String
  | [], acc => [String.mk acc.reverse]
  | c :: cs, acc =>
      if c = '/' then String.mk acc.reverse :: splitSlashGo cs []
      else splitSlashGo cs (c :: acc)

/-- Python `s.split("/")`: split on every slash. -/
def splitSlash (s : String) : List String := splitSlashGo s.data []

/-- Python `s.split("/")[-1]`. -/
def splitSlashLast (s : String) : String := (splitSlash s).getLastD ""

/-- Python `"/".join(parts)`. -/
def joinWithSlash : List String → String
  | [] => ""
  | [p] => p
  | p :: ps => p ++ "/" ++ joinWithSlash ps

/-- Python `s.rsplit("/", 1)[0]`: everything before the last slash, or the
whole string when it has no slash. -/
def rsplitSlashHead (s : String) : String :=
  let parts := splitSlash s
  if parts.length ≤ 1 then s else joinWithSlash parts.dropLast

/-- Python `" ".join(args)`. -/
def joinSpace : List String → String
  | [] => ""
  | a :: as => as.foldl (fun acc x => acc ++ " " ++ x) a

/-- The list `train_args` built by `run_training`. -/
def trainArgs (datasetRepoId policyType : String) (batchSize steps : Nat)
    (hfToken policyRepoId : Option String) : List String :=
  let base : List String := [
    "--dataset.repo_id=" ++ datasetRepoId,
    "--policy.type=" ++ policyType,
    "--batch_size=" ++ toString batchSize,
    "--steps=" ++ toString steps,
    "--output_dir=outputs/train/" ++ policyType ++ "_" ++ splitSlashLast datasetRepoId,
    "--job_name=" ++ policyType ++ "_" ++ splitSlashLast datasetRepoId,
    "--policy.device=cuda",
    "--wandb.enable=false",
    "--dataset.video_backend=pyav",
    "--policy.push_to_hub=false"]
  let withHf := base ++ (match hfToken with
    | some tk => if tk = "" then [] else ["--hf_token=\"" ++ tk ++ "\""]
    | none => [])
  withHf ++ (match policyRepoId with
    | some p =>
        if p = "" then
          ["--policy.repo_id=" ++ rsplitSlashHead datasetRepoId ++ "/" ++ policyType
            ++ "_" ++ splitSlashLast datasetRepoId]
        else ["--policy.repo_id=" ++ p]
    | none =>
        ["--policy.repo_id=" ++ rsplitSlashHead datasetRepoId ++ "/" ++ policyType
          ++ "_" ++ splitSlashLast datasetRepoId])

/-- The complete `training_cmd` string built by `run_training`
(training_runner.py line 127). -/
def trainingCmd (datasetRepoId policyType : String) (batchSize steps : Nat)
    (hfToken policyRepoId : Option String) : String :=
  "source ~/venv_lerobot/bin/activate && lerobot-train "
    ++ joinSpace (trainArgs datasetRepoId policyType batchSize steps hfToken policyRepoId)

/-- The tail of `trainArgs` after its first element `--dataset.repo_id=...`;
`trainArgs ds pt bs st hf pr = ("--dataset.repo_id=" ++ ds) :: trainArgsTail
ds pt bs st hf pr` holds definitionally. -/
def trainArgsTail (datasetRepoId policyType : String) (batchSize steps : Nat)
    (hfToken policyRepoId : Option String) : List String :=
  (["--policy.type=" ++ policyType,
    "--batch_size=" ++ toString batchSize,
    "--steps=" ++ toString steps,
    "--output_dir=outputs/train/" ++ policyType ++ "_" ++ splitSlashLast datasetRepoId,
    "--job_name=" ++ policyType ++ "_" ++ splitSlashLast datasetRepoId,
    "--policy.device=cuda",
    "--wandb.enable=false",
    "--dataset.video_backend=pyav",
    "--policy.push_to_hub=false"]
    ++ (match hfToken with
      | some tk => if tk = "" then [] else ["--hf_token=\"" ++ tk ++ "\""]
      | none => []))
    ++ (match policyRepoId with
      | some p =>
          if p = "" then
            ["--policy.repo_id=" ++ rsplitSlashHead datasetRepoId ++ "/" ++ policyType
              ++ "_" ++ splitSlashLast datasetRepoId]
          else ["--policy.repo_id=" ++ p]
      | none =>
          ["--policy.repo_id=" ++ rsplitSlashHead datasetRepoId ++ "/" ++ policyType
            ++ "_" ++ splitSlashLast datasetRepoId])

/-! Section: Shell-quoting scanner

`scanU c s` decides whether character `c` occurs in `s` outside every
single- or double-quoted region, i.e. at a position where a POSIX shell
would treat it as a metacharacter.  Used to state the injection claim about
`trainingCmd`. -/

def scanU (c : Char) : List Char → Bool → Bool → Bool
  | [], _, _ => false
  | x :: xs, inS, inD =>
      if inS then
        if x = '\'' then scanU c xs false inD else scanU c xs true inD
      else if inD then
        if x = '"' then scanU c xs false false else scanU c xs false true
      else
        if x = c then true
        else if x = '\'' then scanU c xs true false
        else if x = '"' then scanU c xs false true
        else scanU c xs false false

/-- Whether `s` contains a semicolon outside every quoted region: such a
semicolon terminates the current shell command and starts a new one. -/
def hasUnquotedSemicolon (s : String) : Bool := scanU ';' s.data false false

/-- Python `TrainingRunner.run_training` (training_runner.py lines 129-141): builds
`training_cmd` and runs it over the tunnel; returns `True` iff the exit code
is 0. -/
def runTraining (exec : String → Int × String × String)
    (datasetRepoId policyType : String) (batchSize steps : Nat)
    (hfToken policyRepoId : Option String) : Bool :=
  let r := exec (trainingCmd datasetRepoId policyType batchSize steps hfToken policyRepoId)
  r.1 = 0

/-! Section: EC2Manager (ec2_manager.py lines 83-99)

`get_instance_status` returns `State.Name` from one `describe_instances`
call; `get_instance_ip` returns the optional `PublicIpAddress`;
`terminate_instance` issues one `terminate_instances` call and returns
`True`.  In the `train` command flow below these calls are counted in the
trace. -/

/-- Python `EC2Manager.terminate_instance` always returns `True` after issuing the
terminate call (ec2_manager.py lines 95-99). -/
def terminateInstance : Bool := true

/-! Section: The `train` CLI command (lerobot_cloud_train.py lines 232-314)

Inputs are oracles for the external world: `loginOk` for `client.login()`,
`statusAt n` for the value the n-th `get_instance_status` call would return,
`ip` for `get_instance_ip`, `sshConnectOk` for `ssh.connect()`, and `exec`
for remote command execution.  The trace counts the calls the flow actually
makes.

Control flow mirrored from the source: status and IP are each fetched
exactly once (lines 256-257) before the `status != "running"` and missing-IP
checks; a failed `ssh.connect()` exits before the inner `try`, so
`ssh.close()` only runs on paths that entered the inner `try/finally`.  The
call `runner.run_training(..., num_workers=num_workers)` (lines 296-303)
passes a keyword argument that `TrainingRunner.run_training` (which accepts
only dataset_repo_id, policy_type, batch_size, steps, hf_token,
policy_repo_id) does not declare, so at runtime it raises `TypeError` before
executing any training command; the `finally` closes the tunnel and the
outer `except Exception` turns it into exit code 1. -/

structure TrainTrace where
  ok : Bool
  statusCalls : Nat
  ipCalls : Nat
  terminateCalls : Nat
  sshCloseCalls : Nat
  executed : List String
  deriving DecidableEq, Repr

def train (loginOk : Bool) (statusAt : Nat → String) (ip : Option String)
    (sshConnectOk : Bool) (setup : Bool)
    (exec : String → Int × String × String) : TrainTrace :=
  if loginOk = false then
    { ok := false, statusCalls := 0, ipCalls := 0, terminateCalls := 0,
      sshCloseCalls := 0, executed := [] }
  else
    -- status = manager.get_instance_status(instance_id)
    -- ip_address = manager.get_instance_ip(instance_id)
    if statusAt 0 ≠ "running" then
      { ok := false, statusCalls := 1, ipCalls := 1, terminateCalls := 0,
        sshCloseCalls := 0, executed := [] }
    else match ip with
      | none =>
          { ok := false, statusCalls := 1, ipCalls := 1, terminateCalls := 0,
            sshCloseCalls := 0, executed := [] }
      | some _ =>
          if sshConnectOk = false then
            { ok := false, statusCalls := 1, ipCalls := 1, terminateCalls := 0,
              sshCloseCalls := 0, executed := [] }
          else if setup then
            if (setupInstance exec).1 = false then
              -- setup failed: typer.Exit(1) raised, finally runs ssh.close()
              { ok := false, statusCalls := 1, ipCalls := 1, terminateCalls := 0,
                sshCloseCalls := 1, executed := (setupInstance exec).2 }
            else
              -- run_training call raises TypeError (unexpected keyword argument
              -- num_workers); finally runs ssh.close(), outer except exits 1
              { ok := false, statusCalls := 1, ipCalls := 1, terminateCalls := 0,
                sshCloseCalls := 1, executed := (setupInstance exec).2 }
          else
            -- setup skipped; the run_training call still raises TypeError
            { ok := false, statusCalls := 1, ipCalls := 1, terminateCalls := 0,
              sshCloseCalls := 1, executed := [] }

/-- Oracle: the node reports "pending" on the first status call and
"running" on every later one. -/
def pendingThenRunning : Nat → String :=
  fun n => if n = 0 then "pending" else "running"

/-- Oracle: every remote command succeeds with empty output. -/
def execAllOk : String → Int × String × String := fun _ => (0, "", "")

/-- Oracle: setup command 2 exits 127, every other command succeeds. -/
def execCmd2Fails127 : String → Int × String × String :=
  fun c => if c = setupCmd2 then (127, "", "") else (0, "", "")

/-- Oracle: setup command 2 exits 1, every other command succeeds. -/
def execCmd2Fails1 : String → Int × String × String :=
  fun c => if c = setupCmd2 then (1, "", "") else (0, "", "")

/-! Section: helper lemmas about the connect loop -/

/-- Once the loop body runs at least once, at least one more connection
attempt than `attempt` has been counted. -/
theorem connectGo_attempts_ge (outcome : Nat → Option PyExc) (m : Nat) :
    ∀ rem att sl t, 1 ≤ rem →
      att + 1 ≤ (connectGo outcome m rem att sl t).attempts := by
  intro rem
  induction rem with
  | zero => intro att sl t h; exact absurd h (by omega)
  | succ r ih =>
      intro att sl t _
      simp only [connectGo]
      cases houtcome : outcome att with
      | none => simp
      | some e =>
          by_cases hc : caughtByConnect e = true
          · simp only [hc, if_true]
            by_cases hlt : att < m - 1
            · simp only [hlt, if_pos]
              cases r with
              | zero => simp [connectGo]
              | succ r2 =>
                  have := ih (att + 1) (sl + 1) { t with client := some false } (by omega)
                  omega
            · simp [hlt]
          · simp [hc]

/-- One step of the connect loop when the current attempt raises a caught
exception and is not the last attempt: sleep once and move to the next
attempt. -/
theorem connectGo_step_caught (outcome : Nat → Option PyExc) (m r att sl : Nat)
    (t : Tunnel) (e : PyExc) (he : outcome att = some e)
    (hc : caughtByConnect e = true) (hlt : att < m - 1) :
    connectGo outcome m (r + 1) att sl t
      = connectGo outcome m r (att + 1) (sl + 1) { t with client := some false } := by
  simp [connectGo, he, hc, hlt]

/-- Closed form of the connect loop when every attempt before the last one
fails with an error the except clause catches and attempt `m - 1` succeeds:
the loop reaches attempt `m - 1`, sleeping once per failed attempt. -/
theorem connectGo_transient_then_ok (outcome : Nat → Option PyExc) (m : Nat) :
    ∀ rem att sl t, rem + att = m → att < m →
      (∀ i, att ≤ i → i < m - 1 → ∃ e, outcome i = some e ∧ caughtByConnect e = true) →
      outcome (m - 1) = none →
      connectGo outcome m rem att sl t =
        { ok := true, attempts := m, sleeps := sl + (m - 1 - att), raised := none,
          tunnel := { client := some true, sftp := some true } } := by
  intro rem
  induction rem with
  | zero => intro att sl t h1 h2; exact absurd h1 (by omega)
  | succ r ih =>
      intro att sl t h1 h2 htr hok
      by_cases hlast : att = m - 1
      · have houtcome : outcome att = none := by rw [hlast]; exact hok
        simp only [connectGo, houtcome]
        simp only [ConnectResult.mk.injEq, true_and, and_true]
        all_goals omega
      · have hlt : att < m - 1 := by omega
        obtain ⟨e, he, hce⟩ := htr att (le_refl att) hlt
        rw [connectGo_step_caught outcome m r att sl t e he hce hlt]
        rw [ih (att + 1) (sl + 1) { t with client := some false } (by omega) (by omega)
          (fun i hi1 hi2 => htr i (by omega) hi2) hok]
        simp only [ConnectResult.mk.injEq, true_and, and_true]
        all_goals omega

/-! Section: claim C1 -/

/-- Claim C1, corrected.  An authentication failure on the first attempt
does NOT fail immediately: `AuthenticationException` is a subclass of
`SSHException`, which the except clause of `SSHTunnel.connect` catches, so
whenever `max_retries ≥ 2` a second connection attempt is made after a
first-attempt authentication failure. -/
theorem sshConnect_auth_failure_is_retried (outcome : Nat → Option PyExc)
    (maxRetries : Nat) (hge : 2 ≤ maxRetries)
    (hauth : outcome 0 = some PyExc.authenticationException) :
    2 ≤ (connect outcome maxRetries).attempts := by
  obtain ⟨k, rfl⟩ : ∃ k, maxRetries = k + 2 := ⟨maxRetries - 2, by omega⟩
  show 2 ≤ (connectGo outcome (k + 2) (k + 1 + 1) 0 0 initTunnel).attempts
  rw [connectGo_step_caught outcome (k + 2) (k + 1) 0 0 initTunnel
    PyExc.authenticationException hauth rfl (by omega)]
  exact connectGo_attempts_ge outcome (k + 2) (k + 1) 1 1 _ (by omega)

/-- Witness for `sshConnect_auth_failure_is_retried` at the default
`max_retries = 5` and an authentication failure on attempt 0. -/
theorem sshConnect_auth_failure_is_retried_witness :
    2 ≤ 5 ∧ authThenOk 0 = some PyExc.authenticationException ∧
      2 ≤ (connect authThenOk 5).attempts :=
  ⟨by omega, rfl, sshConnect_auth_failure_is_retried authThenOk 5 (by omega) rfl⟩

/-- Claim C1, counterexample to the claim as stated: with `max_retries = 5`
and an authentication failure on the first attempt, `connect` makes a second
attempt (2 attempts in total, with one retry delay in between) instead of
failing immediately, and even returns success when the second attempt
succeeds. -/
theorem sshConnect_auth_failure_counterexample :
    (connect authThenOk 5).attempts = 2 ∧ (connect authThenOk 5).sleeps = 1 ∧
      (connect authThenOk 5).ok = true := by decide

/-! Section: claim C2 -/

/-- Claim C2, corrected.  `max_retries = N` is the TOTAL number of
connection attempts, not the number of retries after a first attempt: if the
first `N - 1` attempts fail with caught (transient) errors and attempt `N`
(index `N - 1`) succeeds, `connect` returns success after exactly `N`
attempts and `N - 1` retry delays.  (A run that fails transiently on all
`N` attempts returns failure and never reaches an `(N+1)`-st attempt.) -/
theorem sshConnect_retry_budget (outcome : Nat → Option PyExc) (N : Nat)
    (hN : 1 ≤ N)
    (htr : ∀ i, i < N - 1 → ∃ e, outcome i = some e ∧ caughtByConnect e = true)
    (hok : outcome (N - 1) = none) :
    connect outcome N =
      { ok := true, attempts := N, sleeps := N - 1, raised := none,
        tunnel := { client := some true, sftp := some true } } := by
  have h := connectGo_transient_then_ok outcome N N 0 0 initTunnel (by omega) (by omega)
    (fun i _ hi => htr i hi) hok
  rw [connect, h]
  simp only [ConnectResult.mk.injEq, true_and, and_true]
  all_goals omega

/-- Witness for `sshConnect_retry_budget`: `max_retries = 2`, connection
refused on attempt 0, success on attempt 1: one retry delay. -/
theorem sshConnect_retry_budget_witness :
    connect refusedThenOk 2 =
      { ok := true, attempts := 2, sleeps := 1, raised := none,
        tunnel := { client := some true, sftp := some true } } :=
  sshConnect_retry_budget refusedThenOk 2 (by omega)
    (fun i hi => by
      have hi0 : i = 0 := by omega
      exact ⟨PyExc.connectionRefused, by rw [hi0]; rfl, rfl⟩)
    rfl

/-- Claim C2, counterexample to the claim as stated: with `max_retries = 1`,
a run that fails transiently on the first attempt and whose next attempt
would succeed (`refusedThenOk 1 = none`) nevertheless returns failure with
zero retry delays, because `max_retries` bounds total attempts. -/
theorem sshConnect_retry_budget_counterexample :
    refusedThenOk 1 = none ∧
      connect refusedThenOk 1 =
        { ok := false, attempts := 1, sleeps := 0, raised := none,
          tunnel := { client := some false, sftp := none } } := by decide

/-! Section: claim C3 -/

/-- Claim C3, corrected.  The train flow never attempts teardown: on every
exit path of the `train` command — login failure, non-running status,
missing address, SSH failure, setup-command failure, or the failure of the
training step — `terminate_instance` is invoked zero times, not once.
Teardown only happens through the separate operator-invoked `terminate`
command.  (The SSH session, by contrast, is closed by the inner `finally`
on every path that reached a successful connect.) -/
theorem trainFlow_never_tears_down (loginOk : Bool) (statusAt : Nat → String)
    (ip : Option String) (sshConnectOk : Bool) (setup : Bool)
    (exec : String → Int × String × String) :
    (train loginOk statusAt ip sshConnectOk setup exec).terminateCalls = 0 := by
  unfold train
  repeat' split
  all_goals rfl

/-- Claim C3, counterexample to the claim as stated, at the concrete
scenario the spec calls scenario B: setup command 2 fails with exit code
127; the claim requires `terminateNode` to then be invoked exactly once,
but the train flow invokes it zero times (it only closes the SSH session). -/
theorem trainFlow_teardown_counterexample :
    (train true (fun _ => "running") (some "3.4.5.6") true true execCmd2Fails127).terminateCalls
        = 0 ∧
      (train true (fun _ => "running") (some "3.4.5.6") true true execCmd2Fails127).ok = false ∧
      (train true (fun _ => "running") (some "3.4.5.6") true true execCmd2Fails127).sshCloseCalls
        = 1 := by decide

/-! Section: claim C5 -/

/-- Claim C5, corrected.  The train flow does not poll: after a successful
login it queries the instance status exactly once and the instance address
exactly once, and a non-running status or missing address makes it fail
immediately — there are no bounded retries, no ceiling timeout and no
`ProvisioningTimeout` report.  (The only retry loop on the way to a session
is inside `SSHTunnel.connect`.) -/
theorem trainFlow_checks_status_once (statusAt : Nat → String) (ip : Option String)
    (sshConnectOk : Bool) (setup : Bool) (exec : String → Int × String × String) :
    (train true statusAt ip sshConnectOk setup exec).statusCalls = 1 ∧
      (train true statusAt ip sshConnectOk setup exec).ipCalls = 1 := by
  constructor <;>
    · unfold train
      repeat' split
      all_goals first | rfl | simp_all

/-- Claim C5, counterexample to the claim as stated: the node is "pending"
on the first status query and "running" from the second query on, so a
poller with bounded retries would succeed; the train flow makes exactly one
status call and fails immediately. -/
theorem trainFlow_no_polling_counterexample :
    pendingThenRunning 1 = "running" ∧
      (train true pendingThenRunning (some "3.4.5.6") true true execAllOk).statusCalls = 1 ∧
      (train true pendingThenRunning (some "3.4.5.6") true true execAllOk).ok = false := by
  decide

/-! Section: claim C6 -/

/-- Claim C6, corrected.  Ordered setup: when setup command 1 succeeds and
setup command 2 exits nonzero, no later setup command is executed (commands
3 and 4 — there are four setup commands, not three — never run) and
`setup_instance` returns `False`.  The exit code itself is only logged; the
boolean returned to the caller does not carry it. -/
theorem setupInstance_aborts_on_failure (exec : String → Int × String × String)
    (h1 : (exec setupCmd1).1 = 0) (h2 : (exec setupCmd2).1 ≠ 0) :
    setupInstance exec = (false, [setupCmd1, setupCmd2]) := by
  unfold setupInstance
  simp [h1, h2]

/-- Witness for `setupInstance_aborts_on_failure` with the oracle where
setup command 2 exits 127. -/
theorem setupInstance_aborts_on_failure_witness :
    setupInstance execCmd2Fails127 = (false, [setupCmd1, setupCmd2]) :=
  setupInstance_aborts_on_failure execCmd2Fails127 (by decide) (by decide)

/-- Claim C6, counterexample to the claim as stated: two runs whose failing
second command exits with different codes (127 and 1) produce identical
results, so the exit code of the failure is NOT reported to the caller —
only the boolean `False` is.  (Sequencing, by contrast, holds: commands 3
and 4 are never run.) -/
theorem setupInstance_exit_code_counterexample :
    setupInstance execCmd2Fails127 = setupInstance execCmd2Fails1 ∧
      execCmd2Fails127 setupCmd2 ≠ execCmd2Fails1 setupCmd2 ∧
      (setupInstance execCmd2Fails127).1 = false := by decide

/-! Section: helper lemmas about the quoting scanner and the command builder -/

/-- If a quote-free block at the head of the scan contains `c`, the scanner
finds `c` unquoted no matter what follows. -/
theorem scanU_append_mem (c : Char) :
    ∀ l1 l2 : List Char, (∀ x ∈ l1, x ≠ '\'' ∧ x ≠ '"') → c ∈ l1 →
      scanU c (l1 ++ l2) false false = true := by
  intro l1
  induction l1 with
  | nil => intro l2 _ hc; exact absurd hc (List.not_mem_nil c)
  | cons x xs ih =>
      intro l2 hq hc
      obtain ⟨hx1, hx2⟩ := hq x (List.mem_cons_self x xs)
      by_cases hxc : x = c
      · simp [scanU, hxc]
      · have hcx : c ∈ xs := by
          cases hc with
          | head => exact absurd rfl hxc
          | tail _ h => exact h
        have hstep : scanU c ((x :: xs) ++ l2) false false
            = scanU c (xs ++ l2) false false := by
          simp [scanU, hxc, hx1, hx2]
        rw [hstep]
        exact ih l2 (fun y hy => hq y (List.mem_cons_of_mem x hy)) hcx

/-- Hoisting a prefix out of the space-joining fold. -/
theorem foldlSep_append (as : List String) :
    ∀ a b : String,
      as.foldl (fun acc x => acc ++ " " ++ x) (a ++ b)
        = a ++ as.foldl (fun acc x => acc ++ " " ++ x) b := by
  induction as with
  | nil => intro a b; rfl
  | cons x xs ih =>
      intro a b
      simp only [List.foldl_cons]
      rw [String.append_assoc a b " ", String.append_assoc a (b ++ " ") x]
      exact ih a (b ++ " " ++ x)

/-- Python `" ".join` of a nonempty list starts with its first element. -/
theorem joinSpace_cons (a : String) (as : List String) :
    joinSpace (a :: as) = a ++ as.foldl (fun acc x => acc ++ " " ++ x) "" := by
  show as.foldl (fun acc x => acc ++ " " ++ x) a = _
  conv_lhs => rw [← String.append_empty a]
  exact foldlSep_append as a ""

/-- The first launch argument is the verbatim dataset repo id. -/
theorem trainArgs_eq (datasetRepoId policyType : String) (batchSize steps : Nat)
    (hfToken policyRepoId : Option String) :
    trainArgs datasetRepoId policyType batchSize steps hfToken policyRepoId
      = ("--dataset.repo_id=" ++ datasetRepoId)
          :: trainArgsTail datasetRepoId policyType batchSize steps hfToken policyRepoId := rfl

/-! Section: claim C4 -/

/-- Claim C4, corrected.  `run_training` interpolates JobSpec fields into
the launch command verbatim, with no quoting or escaping (only `hf_token`
is wrapped in a pair of double quotes): any `dataset_repo_id` that contains
a semicolon and no quote characters puts that semicolon into the command
text outside every quoted region, where the shell treats it as a command
separator — so an untrusted field CAN alter the structure of the command. -/
theorem runTraining_interpolates_unescaped (datasetRepoId policyType : String)
    (batchSize steps : Nat) (hfToken policyRepoId : Option String)
    (hsemi : ';' ∈ datasetRepoId.data)
    (hnq : ∀ x ∈ datasetRepoId.data, x ≠ '\'' ∧ x ≠ '"') :
    hasUnquotedSemicolon
        (trainingCmd datasetRepoId policyType batchSize steps hfToken policyRepoId)
      = true := by
  unfold hasUnquotedSemicolon trainingCmd
  rw [trainArgs_eq, joinSpace_cons]
  rw [show ("source ~/venv_lerobot/bin/activate && lerobot-train "
        ++ (("--dataset.repo_id=" ++ datasetRepoId)
          ++ (trainArgsTail datasetRepoId policyType batchSize steps hfToken
              policyRepoId).foldl (fun acc x => acc ++ " " ++ x) "")).data
      = ("source ~/venv_lerobot/bin/activate && lerobot-train ".data
          ++ ("--dataset.repo_id=".data ++ datasetRepoId.data))
        ++ ((trainArgsTail datasetRepoId policyType batchSize steps hfToken
            policyRepoId).foldl (fun acc x => acc ++ " " ++ x) "").data from by
    simp [String.data_append, List.append_assoc]]
  refine scanU_append_mem ';' _ _ ?_ ?_
  · intro x hx
    rcases List.mem_append.mp hx with h | h
    · exact
        (by decide :
          ∀ x ∈ "source ~/venv_lerobot/bin/activate && lerobot-train ".data,
            x ≠ '\'' ∧ x ≠ '"') x h
    · rcases List.mem_append.mp h with h2 | h2
      · exact (by decide : ∀ x ∈ "--dataset.repo_id=".data, x ≠ '\'' ∧ x ≠ '"') x h2
      · exact hnq x h2
  · exact List.mem_append.mpr (Or.inr (List.mem_append.mpr (Or.inr hsemi)))

/-- Witness for `runTraining_interpolates_unescaped`: a dataset repo id
carrying a shell command after a semicolon. -/
theorem runTraining_interpolates_unescaped_witness :
    hasUnquotedSemicolon (trainingCmd "user/data;touch pwned" "act" 4 10000 none none)
      = true :=
  runTraining_interpolates_unescaped "user/data;touch pwned" "act" 4 10000 none none
    (by decide) (by decide)

/-- Claim C4, counterexample to the claim as stated: with benign fields the
command has no unquoted semicolon, but the JobSpec whose dataset repo id is
`user/data;touch pwned` produces a command with an unquoted semicolon — the
field value changed the shell structure of the command text, so it is not
the case that every interpolated field is quoted/escaped. -/
theorem runTraining_escaping_counterexample :
    hasUnquotedSemicolon (trainingCmd "user/data" "act" 4 10000 none none) = false ∧
      hasUnquotedSemicolon (trainingCmd "user/data;touch pwned" "act" 4 10000 none none)
        = true := by decide

/-! Section: claim C7 -/

/-- Closed form of one stream loop of `execute_command`: the accumulated
text is every line in order with one appended newline each, and (when
streaming) the observer receives exactly the lines, in order, each stripped
of trailing newlines and prefixed with the tag. -/
theorem readStream_spec (stream : Bool) (tag : String) :
    ∀ (lines : List String) (text : String) (printed : List String),
      readStream stream tag lines text printed =
        (text ++ concatLines lines,
          printed ++ (if stream then lines.map (fun l => tag ++ rstripNl l) else [])) := by
  intro lines
  induction lines with
  | nil => intro text printed; cases stream <;> simp [readStream, concatLines]
  | cons l rest ih =>
      intro text printed
      simp only [readStream]
      rw [ih]
      cases stream <;> simp [concatLines, String.append_assoc]

/-- Claim C7, confirmed.  For every command executed over a connected
tunnel with streaming on, the observer receives all stdout lines in their
original order and all stderr lines in their original order, with no line
duplicated or dropped (the delivered lists are exactly `List.map` over the
input streams, so they have the same length and order); the accumulated
texts likewise contain every line in order.  All stdout lines are delivered
before any stderr line, which satisfies the absence of a cross-stream
ordering guarantee. -/
theorem executeCommand_stream_delivery (command : String)
    (outLines errLines : List String) (exitStatus : Int) :
    executeCommand { client := some true, sftp := some true } command true
        outLines errLines exitStatus =
      Except.ok
        { exitCode := exitStatus,
          stdoutText := concatLines outLines,
          stderrText := concatLines errLines,
          printed := outLines.map (fun l => rstripNl l)
            ++ errLines.map (fun l => "[ERROR] " ++ rstripNl l) } := by
  simp [executeCommand, readStream_spec, String.empty_append]

/-! Section: claim C8 -/

/-- Claim C8, confirmed.  On a connected tunnel a file-transfer failure is
reported as the per-path result `False` and never surfaces as an exception:
collecting one valid and one nonexistent remote path yields one `ok true`
and one `ok false` (no `error`), without aborting the collection. -/
theorem downloadFile_reports_per_path (remoteOk : String → Bool)
    (p1 p2 localPath : String) (h1 : remoteOk p1 = true) (h2 : remoteOk p2 = false) :
    [p1, p2].map
        (fun p => downloadFile { client := some true, sftp := some true } remoteOk p localPath)
      = [Except.ok true, Except.ok false] := by
  simp [downloadFile, h1, h2]

/-- Witness for `downloadFile_reports_per_path`: the remote filesystem
contains `outputs/train` but not `outputs/missing`. -/
theorem downloadFile_reports_per_path_witness :
    ["outputs/train", "outputs/missing"].map
        (fun p => downloadFile { client := some true, sftp := some true }
          (fun s => s == "outputs/train") p "outputs/local")
      = [Except.ok true, Except.ok false] :=
  downloadFile_reports_per_path (fun s => s == "outputs/train")
    "outputs/train" "outputs/missing" "outputs/local" (by decide) (by decide)

/-! Section: claim C9 -/

/-- Claim C9, confirmed.  `close` is idempotent on every tunnel state —
never opened (both fields `None`), partially opened (only the client
object set), or fully opened: a second `close` leaves the same released
state as the first, and (in the embedding, where `close` is total) it does
not raise. -/
theorem close_idempotent (t : Tunnel) : close (close t) = close t := by
  cases t with
  | mk client sftp => cases client <;> cases sftp <;> rfl

/-! Section: claim C10 -/

/-- Claim C10, confirmed.  On a tunnel whose `connect` has not succeeded
(`client` and `sftp` both still `None`), `execute_command`, `upload_file`
and `download_file` each raise `RuntimeError("Not connected. Call connect()
first.")`.  The results do not depend on any of the remote oracles (they
are universally quantified and unused), so no remote action is performed,
and the functions take the tunnel immutably, so its state is unchanged. -/
theorem notConnected_guards (t : Tunnel) (command : String) (streamOutput : Bool)
    (outLines errLines : List String) (exitStatus : Int)
    (localOk remoteOk : String → Bool) (lp rp rp2 lp2 : String)
    (hc : t.client = none) (hs : t.sftp = none) :
    executeCommand t command streamOutput outLines errLines exitStatus
        = .error (.runtimeError notConnectedMsg) ∧
      uploadFile t localOk lp rp = .error (.runtimeError notConnectedMsg) ∧
      downloadFile t remoteOk rp2 lp2 = .error (.runtimeError notConnectedMsg) := by
  refine ⟨?_, ?_, ?_⟩ <;> simp [executeCommand, uploadFile, downloadFile, hc, hs]

/-- Witness for `notConnected_guards` at the freshly-initialised tunnel. -/
theorem notConnected_guards_witness :
    initTunnel.client = none ∧ initTunnel.sftp = none ∧
      executeCommand initTunnel "nvidia-smi" true [] [] 0
          = .error (.runtimeError notConnectedMsg) ∧
      uploadFile initTunnel (fun _ => true) "a.txt" "b.txt"
          = .error (.runtimeError notConnectedMsg) ∧
      downloadFile initTunnel (fun _ => true) "c.txt" "d.txt"
          = .error (.runtimeError notConnectedMsg) := by
  refine ⟨rfl, rfl, ?_, ?_, ?_⟩
  · exact (notConnected_guards initTunnel "nvidia-smi" true [] [] 0 (fun _ => true)
      (fun _ => true) "a.txt" "b.txt" "c.txt" "d.txt" rfl rfl).1
  · exact (notConnected_guards initTunnel "nvidia-smi" true [] [] 0 (fun _ => true)
      (fun _ => true) "a.txt" "b.txt" "c.txt" "d.txt" rfl rfl).2.1
  · exact (notConnected_guards initTunnel "nvidia-smi" true [] [] 0 (fun _ => true)
      (fun _ => true) "a.txt" "b.txt" "c.txt" "d.txt" rfl rfl).2.2

end LeRobotCloud
